import Mathlib

/-!
Verification of the `BusinessNumbers.donate_kbase_points` operation from
`src/business_numbers.py`.

The Python function is decorated with
`@retry(stop=stop_after_attempt(3), wait=wait_fixed(1),
        retry=retry_if_exception_type((FutureTimeoutError, DatabaseOperationError)))`
from the tenacity library.  The decorated body validates its `points`
argument, then, inside a store transaction, fetches the user (with a
timeout), checks the balance, decrements it and saves, returning a result
dictionary.  `NoSuchUserError` and `ValueError` are re-raised unchanged;
any other exception (including the fetch timeout) is wrapped into
`DatabaseOperationError("Failed to process donation after retries.") from e`.

tenacity semantics modelled here: each raised exception is tested against
the retry predicate; a matching exception triggers a new attempt while
fewer than 3 total attempts have run; a non-matching exception is re-raised
to the caller unchanged; with the default `reraise=False`, once 3 attempts
have failed with matching exceptions the caller receives a
`tenacity.RetryError` wrapping the last attempt's exception, not the
exception itself.

Python dynamic typing of the `points` argument is modelled by `PyVal`;
in Python `bool` is a subclass of `int`, so `isinstance(points, int)`
accepts booleans.

The store (`dbwrapper`) is external.  It is modelled as an association
list of accounts plus a counter producing opaque update ids, together
with a per-attempt infrastructure script saying whether `get_user` and
`save_user` raise (timeout / generic failure) or succeed.  A failed
attempt never commits its transaction, so the store state is unchanged
on every error path.
-/

namespace BusinessNumbers

/-- A Python value passed as the `magic_kbase_points` argument.
Only the shape needed by the `isinstance(points, int)` check and the
arithmetic is kept; `pyFloat`, `pyStr` and `pyNone` are non-int values. -/
inductive PyVal where
  | pyInt (n : Int)
  | pyBool (b : Bool)
  | pyStr (s : String)
  | pyFloat
  | pyNone
deriving DecidableEq, Repr

/-- Python `isinstance(v, int)`: true for `int` and (because `bool` is a
subclass of `int`) for `bool`. -/
def isinstance_int : PyVal → Bool
  | .pyInt _ => true
  | .pyBool _ => true
  | _ => false

/-- The integer value of a Python int-like value (`True == 1`, `False == 0`).
Only meaningful when `isinstance_int` holds. -/
def pyIntValue : PyVal → Int
  | .pyInt n => n
  | .pyBool b => if b then 1 else 0
  | _ => 0

/-- The underlying exception wrapped into a `DatabaseOperationError`:
either the `concurrent.futures.TimeoutError` from the fetch, or a generic
store exception. -/
inductive Cause where
  | futureTimeoutError
  | genericError (msg : String)
deriving DecidableEq, Repr

/-- The exceptions a single (undecorated) call of `donate_kbase_points`
can raise.  `futureTimeoutError` is listed because the tenacity retry
predicate mentions it, although the body's `except Exception` clause
always wraps it before it could escape. -/
inductive DonateError where
  | typeError (msg : String)
  | valueError (msg : String)
  | noSuchUserError (username : String)
  | futureTimeoutError
  | databaseOperationError (msg : String) (cause : Cause)
deriving DecidableEq, Repr

/-- The success value: the dictionary
`{"username": ..., "remaining_kbase_points": ..., "update_id": ...}`. -/
structure DonationResult where
  username : String
  remaining_kbase_points : Int
  update_id : Nat
deriving DecidableEq, Repr

/-- Behaviour of one store primitive call in a given attempt:
succeed, raise the fetch timeout, or raise a generic store exception. -/
inductive InfraOutcome where
  | ok
  | timeout
  | failure (msg : String)
deriving DecidableEq, Repr

/-- Infrastructure behaviour scripted for one attempt: what `get_user`
and `save_user` do if reached. -/
structure AttemptScript where
  getOutcome : InfraOutcome
  saveOutcome : InfraOutcome
deriving DecidableEq, Repr

/-- The store state: account balances keyed by username, and the counter
producing the opaque update id returned by each successful `save_user`. -/
structure DB where
  accounts : List (String × Int)
  nextUpdateId : Nat
deriving DecidableEq, Repr

/-- `get_user` data lookup: the balance stored for a username, or `none`
when the user does not exist. -/
def lookupBalance : List (String × Int) → String → Option Int
  | [], _ => none
  | (u, b) :: rest, q => if u = q then some b else lookupBalance rest q

/-- `save_user` data write: replace the stored balance of a username. -/
def setBalance : List (String × Int) → String → Int → List (String × Int)
  | [], _, _ => []
  | (u, b) :: rest, q, nb =>
      if u = q then (u, nb) :: rest else (u, b) :: setBalance rest q nb

/-- Store accesses performed by one attempt: transactions entered,
`get_user` calls, `save_user` calls. -/
structure AttemptTrace where
  txnCalls : Nat
  getCalls : Nat
  saveCalls : Nat
deriving DecidableEq, Repr

/-- One undecorated call of `donate_kbase_points(self, username,
magic_kbase_points)`: validation, then the transaction body, with the
`except` clauses applied.  Returns the outcome, the store state after the
attempt (unchanged unless the transaction committed) and the access trace. -/
def donate_kbase_points (script : AttemptScript) (db : DB) (username : String)
    (magic_kbase_points : PyVal) :
    Except DonateError DonationResult × DB × AttemptTrace :=
  if isinstance_int magic_kbase_points = false then
    (.error (.typeError "Donation points must be an integer."), db, ⟨0, 0, 0⟩)
  else if pyIntValue magic_kbase_points ≤ 0 then
    (.error (.valueError "Donation points must be a positive integer."), db, ⟨0, 0, 0⟩)
  else
    match script.getOutcome with
    | .timeout =>
        (.error (.databaseOperationError "Failed to process donation after retries."
            .futureTimeoutError), db, ⟨1, 1, 0⟩)
    | .failure m =>
        (.error (.databaseOperationError "Failed to process donation after retries."
            (.genericError m)), db, ⟨1, 1, 0⟩)
    | .ok =>
        match lookupBalance db.accounts username with
        | none => (.error (.noSuchUserError username), db, ⟨1, 1, 0⟩)
        | some bal =>
            if bal < pyIntValue magic_kbase_points then
              (.error (.valueError "Insufficient KBase points."), db, ⟨1, 1, 0⟩)
            else
              match script.saveOutcome with
              | .ok =>
                  (.ok ⟨username, bal - pyIntValue magic_kbase_points, db.nextUpdateId⟩,
                   ⟨setBalance db.accounts username (bal - pyIntValue magic_kbase_points),
                    db.nextUpdateId + 1⟩,
                   ⟨1, 1, 1⟩)
              | .timeout =>
                  (.error (.databaseOperationError "Failed to process donation after retries."
                      .futureTimeoutError), db, ⟨1, 1, 1⟩)
              | .failure m =>
                  (.error (.databaseOperationError "Failed to process donation after retries."
                      (.genericError m)), db, ⟨1, 1, 1⟩)

/-- The tenacity retry predicate
`retry_if_exception_type((FutureTimeoutError, DatabaseOperationError))`. -/
def is_retryable : DonateError → Bool
  | .futureTimeoutError => true
  | .databaseOperationError _ _ => true
  | _ => false

/-- What the caller of the decorated function receives on failure:
either an exception re-raised unchanged, or (attempts exhausted with the
default `reraise=False`) a `tenacity.RetryError` wrapping the last
attempt's exception. -/
inductive CallerError where
  | raised (e : DonateError)
  | retryError (lastAttempt : DonateError)
deriving DecidableEq, Repr

/-- Store accesses over the whole decorated call, plus the number of
attempts tenacity ran. -/
structure CallTrace where
  attempts : Nat
  txnCalls : Nat
  getCalls : Nat
  saveCalls : Nat
deriving DecidableEq, Repr

/-- Accumulate one attempt's store accesses into the call-wide trace and
count the attempt. -/
def addTrace (tr : CallTrace) (t : AttemptTrace) : CallTrace :=
  ⟨tr.attempts + 1, tr.txnCalls + t.txnCalls, tr.getCalls + t.getCalls,
   tr.saveCalls + t.saveCalls⟩

/-- The tenacity retry loop around `donate_kbase_points`.  `retriesLeft`
counts the attempts still allowed after the current one; `attemptNumber`
indexes the per-attempt infrastructure script.  A non-retryable exception
is re-raised at once; a retryable one triggers a new attempt while
attempts remain, and becomes the payload of a `RetryError` once they are
exhausted. -/
def retryRun (scripts : Nat → AttemptScript) (username : String) (points : PyVal) :
    Nat → Nat → DB → CallTrace → Except CallerError DonationResult × DB × CallTrace
  | 0, attemptNumber, db, tr =>
    match donate_kbase_points (scripts attemptNumber) db username points with
    | (.ok r, db2, t) => (.ok r, db2, addTrace tr t)
    | (.error e, db2, t) =>
        if is_retryable e then (.error (.retryError e), db2, addTrace tr t)
        else (.error (.raised e), db2, addTrace tr t)
  | n + 1, attemptNumber, db, tr =>
    match donate_kbase_points (scripts attemptNumber) db username points with
    | (.ok r, db2, t) => (.ok r, db2, addTrace tr t)
    | (.error e, db2, t) =>
        if is_retryable e then
          retryRun scripts username points n (attemptNumber + 1) db2 (addTrace tr t)
        else (.error (.raised e), db2, addTrace tr t)

/-- The public `donate` call: the decorated `donate_kbase_points` with
`stop_after_attempt(3)`, i.e. one attempt plus at most two retries. -/
def donate (scripts : Nat → AttemptScript) (db : DB) (username : String)
    (points : PyVal) : Except CallerError DonationResult × DB × CallTrace :=
  retryRun scripts username points 2 1 db ⟨0, 0, 0, 0⟩

/-- A script under which the infrastructure never fails. -/
def allOk : Nat → AttemptScript := fun _ => ⟨.ok, .ok⟩

/-- True exactly when the caller-visible outcome is a directly raised
`DatabaseOperationError` (as opposed to one wrapped in a `RetryError`). -/
def receivedDatabaseOperationError : Except CallerError DonationResult → Bool
  | .error (.raised (.databaseOperationError _ _)) => true
  | _ => false

/-! ## Helper lemmas -/

/-- Saving a new balance for a stored user makes later lookups return it. -/
theorem lookupBalance_setBalance_self (l : List (String × Int)) (u : String) (b nb : Int)
    (h : lookupBalance l u = some b) :
    lookupBalance (setBalance l u nb) u = some nb := by
  induction l with
  | nil => simp [lookupBalance] at h
  | cons hd tl ih =>
    obtain ⟨u0, b0⟩ := hd
    by_cases hu : u0 = u
    · simp [lookupBalance, setBalance, hu]
    · simp [lookupBalance, setBalance, hu] at h ⊢
      exact ih h

/-- A fully successful call with no infrastructure failures: one attempt,
balance decremented, update id taken from the store counter. -/
theorem donate_allOk_success_py (db : DB) (u : String) (p : PyVal) (bal : Int)
    (hl : lookupBalance db.accounts u = some bal)
    (hi : isinstance_int p = true)
    (h1 : 0 < pyIntValue p) (h2 : pyIntValue p ≤ bal) :
    donate allOk db u p =
      (.ok ⟨u, bal - pyIntValue p, db.nextUpdateId⟩,
       ⟨setBalance db.accounts u (bal - pyIntValue p), db.nextUpdateId + 1⟩,
       ⟨1, 1, 1, 1⟩) := by
  have h1' : ¬ pyIntValue p ≤ 0 := by omega
  have h3' : ¬ bal < pyIntValue p := by omega
  simp [donate, retryRun, addTrace, donate_kbase_points, allOk, hi, h1', hl, h3']

/-! ## Claim theorems -/

/-- C2: for every stored account with balance at least `points` and every
positive integer `points`, the all-successful `donate` returns
`remaining = bal - points` with the update id returned by `save_user`
(the store counter), and the stored balance afterwards equals the returned
remaining value, i.e. it decreased by exactly `points`. -/
theorem donate_success_decrements (db : DB) (u : String) (p bal : Int)
    (hl : lookupBalance db.accounts u = some bal)
    (h1 : 0 < p) (h2 : p ≤ bal) :
    donate allOk db u (.pyInt p) =
      (.ok ⟨u, bal - p, db.nextUpdateId⟩,
       ⟨setBalance db.accounts u (bal - p), db.nextUpdateId + 1⟩,
       ⟨1, 1, 1, 1⟩) ∧
    lookupBalance (setBalance db.accounts u (bal - p)) u = some (bal - p) := by
  refine ⟨?_, lookupBalance_setBalance_self db.accounts u bal (bal - p) hl⟩
  simpa using donate_allOk_success_py db u (.pyInt p) bal hl rfl (by simpa [pyIntValue] using h1)
    (by simpa [pyIntValue] using h2)

/-- C2 witness: balance 100, points 30 yields remaining 70. -/
theorem donate_success_decrements_witness :
    donate allOk ⟨[("alice", 100)], 0⟩ "alice" (.pyInt 30) =
      (.ok ⟨"alice", 70, 0⟩, ⟨[("alice", 70)], 1⟩, ⟨1, 1, 1, 1⟩) ∧
    lookupBalance [("alice", 70)] "alice" = some 70 := by
  have h := donate_success_decrements ⟨[("alice", 100)], 0⟩ "alice" 30 100 rfl
    (by decide) (by decide)
  simpa using h

/-- C3: for every non-integer `points` value, `donate` raises the
`TypeError` immediately: one attempt, no transaction, no `get_user`, no
`save_user`, store unchanged. -/
theorem donate_non_int_typeError (scripts : Nat → AttemptScript) (db : DB)
    (u : String) (p : PyVal) (h : isinstance_int p = false) :
    donate scripts db u p =
      (.error (.raised (.typeError "Donation points must be an integer.")),
       db, ⟨1, 0, 0, 0⟩) := by
  simp [donate, retryRun, addTrace, donate_kbase_points, h, is_retryable]

/-- C3 witness: a string argument. -/
theorem donate_non_int_typeError_witness :
    donate allOk ⟨[("alice", 100)], 0⟩ "alice" (.pyStr "many") =
      (.error (.raised (.typeError "Donation points must be an integer.")),
       ⟨[("alice", 100)], 0⟩, ⟨1, 0, 0, 0⟩) :=
  donate_non_int_typeError allOk ⟨[("alice", 100)], 0⟩ "alice" (.pyStr "many") rfl

/-- C4: for every integer `points ≤ 0`, `donate` raises the `ValueError`
immediately: one attempt, no transaction, no `get_user`, no `save_user`,
store unchanged. -/
theorem donate_nonpositive_valueError (scripts : Nat → AttemptScript) (db : DB)
    (u : String) (p : PyVal) (hi : isinstance_int p = true)
    (hp : pyIntValue p ≤ 0) :
    donate scripts db u p =
      (.error (.raised (.valueError "Donation points must be a positive integer.")),
       db, ⟨1, 0, 0, 0⟩) := by
  simp [donate, retryRun, addTrace, donate_kbase_points, hi, hp, is_retryable]

/-- C4 witness: zero points. -/
theorem donate_nonpositive_valueError_witness :
    donate allOk ⟨[("alice", 100)], 0⟩ "alice" (.pyInt 0) =
      (.error (.raised (.valueError "Donation points must be a positive integer.")),
       ⟨[("alice", 100)], 0⟩, ⟨1, 0, 0, 0⟩) :=
  donate_nonpositive_valueError allOk ⟨[("alice", 100)], 0⟩ "alice" (.pyInt 0) rfl
    (by decide)

/-- C5: when `get_user` succeeds but the store holds no account for the
username, `donate` raises `NoSuchUserError` on the first attempt, without
retry and without any `save_user` call, and the store is unchanged. -/
theorem donate_user_not_found (scripts : Nat → AttemptScript) (db : DB)
    (u : String) (p : PyVal)
    (hg : (scripts 1).getOutcome = .ok)
    (hl : lookupBalance db.accounts u = none)
    (hi : isinstance_int p = true) (hp : 0 < pyIntValue p) :
    donate scripts db u p =
      (.error (.raised (.noSuchUserError u)), db, ⟨1, 1, 1, 0⟩) := by
  have hp' : ¬ pyIntValue p ≤ 0 := by omega
  simp [donate, retryRun, addTrace, donate_kbase_points, hi, hp', hg, hl, is_retryable]

/-- C5 witness: unknown user "bob". -/
theorem donate_user_not_found_witness :
    donate allOk ⟨[("alice", 100)], 0⟩ "bob" (.pyInt 30) =
      (.error (.raised (.noSuchUserError "bob")), ⟨[("alice", 100)], 0⟩,
       ⟨1, 1, 1, 0⟩) :=
  donate_user_not_found allOk ⟨[("alice", 100)], 0⟩ "bob" (.pyInt 30) rfl rfl rfl
    (by decide)

/-- C6: when the stored balance is below the positive requested points,
`donate` raises the `ValueError` whose message starts with "Insufficient"
on the first attempt; no `save_user` call happens and the store (hence
the balance) is unchanged. -/
theorem donate_insufficient_balance (scripts : Nat → AttemptScript) (db : DB)
    (u : String) (p : PyVal) (bal : Int)
    (hg : (scripts 1).getOutcome = .ok)
    (hl : lookupBalance db.accounts u = some bal)
    (hi : isinstance_int p = true) (hp : 0 < pyIntValue p)
    (hb : bal < pyIntValue p) :
    donate scripts db u p =
      (.error (.raised (.valueError "Insufficient KBase points.")), db,
       ⟨1, 1, 1, 0⟩) ∧
    "Insufficient KBase points." = "Insufficient" ++ " KBase points." := by
  have hp' : ¬ pyIntValue p ≤ 0 := by omega
  refine ⟨?_, by decide⟩
  simp [donate, retryRun, addTrace, donate_kbase_points, hi, hp', hg, hl, hb, is_retryable]

/-- C6 witness: balance 10, points 30. -/
theorem donate_insufficient_balance_witness :
    (donate allOk ⟨[("alice", 10)], 0⟩ "alice" (.pyInt 30) =
      (.error (.raised (.valueError "Insufficient KBase points.")),
       ⟨[("alice", 10)], 0⟩, ⟨1, 1, 1, 0⟩)) ∧
    "Insufficient KBase points." = "Insufficient" ++ " KBase points." :=
  donate_insufficient_balance allOk ⟨[("alice", 10)], 0⟩ "alice" (.pyInt 30) 10
    rfl rfl rfl (by decide) (by decide)

/-- C1 counterexample: with all three attempts timing out on the fetch for
an otherwise valid donation, the caller does not receive the
`DatabaseOperationError` itself: tenacity (default `reraise=False`) raises
a `RetryError` wrapping the last attempt's `DatabaseOperationError`. -/
theorem three_failures_counterexample :
    receivedDatabaseOperationError
        (donate (fun _ => ⟨.timeout, .ok⟩) ⟨[("alice", 100)], 0⟩ "alice"
          (.pyInt 30)).1 = false ∧
    (donate (fun _ => ⟨.timeout, .ok⟩) ⟨[("alice", 100)], 0⟩ "alice"
        (.pyInt 30)).1 =
      .error (.retryError (.databaseOperationError
        "Failed to process donation after retries." .futureTimeoutError)) :=
  ⟨rfl, rfl⟩

/-- C1 (amended): after three consecutive attempts each failing with a
wrapped transient store failure (a `DatabaseOperationError` carrying its
underlying cause), the caller receives a tenacity `RetryError` wrapping
the last attempt's `DatabaseOperationError`, which carries the last
underlying cause; exactly 3 attempts run and the store is unchanged. -/
theorem three_failures_retryError (scripts : Nat → AttemptScript) (db : DB)
    (u : String) (p : PyVal) (m1 m2 m3 : String) (c1 c2 c3 : Cause)
    (t1 t2 t3 : AttemptTrace)
    (h1 : donate_kbase_points (scripts 1) db u p =
      (.error (.databaseOperationError m1 c1), db, t1))
    (h2 : donate_kbase_points (scripts 2) db u p =
      (.error (.databaseOperationError m2 c2), db, t2))
    (h3 : donate_kbase_points (scripts 3) db u p =
      (.error (.databaseOperationError m3 c3), db, t3)) :
    (donate scripts db u p).1 =
      .error (.retryError (.databaseOperationError m3 c3)) ∧
    (donate scripts db u p).2.2.attempts = 3 ∧
    (donate scripts db u p).2.1 = db := by
  simp [donate, retryRun, addTrace, h1, h2, h3, is_retryable]

/-- C1 witness for the amended statement: three fetch timeouts. -/
theorem three_failures_retryError_witness :
    (donate (fun _ => ⟨.timeout, .ok⟩) ⟨[("alice", 100)], 0⟩ "alice"
        (.pyInt 30)).1 =
      .error (.retryError (.databaseOperationError
        "Failed to process donation after retries." .futureTimeoutError)) ∧
    (donate (fun _ => ⟨.timeout, .ok⟩) ⟨[("alice", 100)], 0⟩ "alice"
        (.pyInt 30)).2.2.attempts = 3 ∧
    (donate (fun _ => ⟨.timeout, .ok⟩) ⟨[("alice", 100)], 0⟩ "alice"
        (.pyInt 30)).2.1 = ⟨[("alice", 100)], 0⟩ :=
  three_failures_retryError (fun _ => ⟨.timeout, .ok⟩) ⟨[("alice", 100)], 0⟩
    "alice" (.pyInt 30) "Failed to process donation after retries."
    "Failed to process donation after retries."
    "Failed to process donation after retries."
    .futureTimeoutError .futureTimeoutError .futureTimeoutError
    ⟨1, 1, 0⟩ ⟨1, 1, 0⟩ ⟨1, 1, 0⟩ rfl rfl rfl

/-- A successful single attempt leaves a non-negative stored balance equal
to the returned `remaining_kbase_points`. -/
theorem donate_kbase_points_ok_shape (s : AttemptScript) (db : DB) (u : String)
    (p : PyVal) (r : DonationResult) (db2 : DB) (t : AttemptTrace)
    (h : donate_kbase_points s db u p = (.ok r, db2, t)) :
    0 ≤ r.remaining_kbase_points ∧
    lookupBalance db2.accounts u = some r.remaining_kbase_points := by
  by_cases hi : isinstance_int p = false
  · simp [donate_kbase_points, hi] at h
  · by_cases hp : pyIntValue p ≤ 0
    · simp [donate_kbase_points, hi, hp] at h
    · rcases hg : s.getOutcome with _ | _ | m
      · rcases hl : lookupBalance db.accounts u with _ | bal
        · simp [donate_kbase_points, hi, hp, hg, hl] at h
        · by_cases hb : bal < pyIntValue p
          · simp [donate_kbase_points, hi, hp, hg, hl, hb] at h
          · rcases hs : s.saveOutcome with _ | _ | m2
            · simp [donate_kbase_points, hi, hp, hg, hl, hb, hs] at h
              obtain ⟨hr, hdb2, ht⟩ := h
              subst hr
              subst hdb2
              refine ⟨by simp; omega, ?_⟩
              simpa using lookupBalance_setBalance_self db.accounts u bal
                (bal - pyIntValue p) hl
            · simp [donate_kbase_points, hi, hp, hg, hl, hb, hs] at h
            · simp [donate_kbase_points, hi, hp, hg, hl, hb, hs] at h
      · simp [donate_kbase_points, hi, hp, hg] at h
      · simp [donate_kbase_points, hi, hp, hg] at h

/-- The invariant of `donate_kbase_points_ok_shape` lifted through the
retry loop: a successful decorated call comes from a successful attempt. -/
theorem retryRun_ok_shape (scripts : Nat → AttemptScript) (u : String) (p : PyVal) :
    ∀ (rl an : Nat) (db : DB) (tr : CallTrace) (r : DonationResult) (db2 : DB)
      (tr2 : CallTrace),
      retryRun scripts u p rl an db tr = (.ok r, db2, tr2) →
      0 ≤ r.remaining_kbase_points ∧
      lookupBalance db2.accounts u = some r.remaining_kbase_points := by
  intro rl
  induction rl with
  | zero =>
    intro an db tr r db2 tr2 h
    rcases hstep : donate_kbase_points (scripts an) db u p with ⟨res, dbm, t⟩
    rcases res with e | r0
    · simp only [retryRun, hstep] at h
      by_cases hr : is_retryable e = true
      · simp [hr] at h
      · simp [hr] at h
    · simp only [retryRun, hstep, Prod.mk.injEq, Except.ok.injEq] at h
      obtain ⟨h1, h2, h3⟩ := h
      subst h1
      subst h2
      exact donate_kbase_points_ok_shape (scripts an) db u p r0 dbm t hstep
  | succ n ih =>
    intro an db tr r db2 tr2 h
    rcases hstep : donate_kbase_points (scripts an) db u p with ⟨res, dbm, t⟩
    rcases res with e | r0
    · simp only [retryRun, hstep] at h
      by_cases hr : is_retryable e = true
      · simp only [hr] at h
        simp at h
        exact ih (an + 1) dbm _ r db2 tr2 h
      · simp [hr] at h
    · simp only [retryRun, hstep, Prod.mk.injEq, Except.ok.injEq] at h
      obtain ⟨h1, h2, h3⟩ := h
      subst h1
      subst h2
      exact donate_kbase_points_ok_shape (scripts an) db u p r0 dbm t hstep

/-- C7: any successful `donate` commit stores a non-negative balance equal
to the returned remaining value (success requires `points ≤ balance` and
`0 < points`); and donating the exact balance succeeds, leaving exactly 0. -/
theorem donate_balance_nonneg :
    (∀ (scripts : Nat → AttemptScript) (db : DB) (u : String) (p : PyVal)
       (r : DonationResult) (db2 : DB) (tr : CallTrace),
       donate scripts db u p = (.ok r, db2, tr) →
       0 ≤ r.remaining_kbase_points ∧
       lookupBalance db2.accounts u = some r.remaining_kbase_points) ∧
    (∀ (db : DB) (u : String) (bal : Int),
       lookupBalance db.accounts u = some bal → 0 < bal →
       donate allOk db u (.pyInt bal) =
         (.ok ⟨u, 0, db.nextUpdateId⟩,
          ⟨setBalance db.accounts u 0, db.nextUpdateId + 1⟩, ⟨1, 1, 1, 1⟩)) := by
  constructor
  · intro scripts db u p r db2 tr h
    exact retryRun_ok_shape scripts u p 2 1 db ⟨0, 0, 0, 0⟩ r db2 tr h
  · intro db u bal hl h
    have e := donate_allOk_success_py db u (.pyInt bal) bal hl rfl h (le_refl _)
    simpa [pyIntValue] using e

/-- C7 witness: a successful run keeps the balance non-negative, and
donating the whole balance of 100 leaves exactly 0. -/
theorem donate_balance_nonneg_witness :
    (0 ≤ (70 : Int) ∧ lookupBalance [("alice", 70)] "alice" = some 70) ∧
    donate allOk ⟨[("alice", 100)], 0⟩ "alice" (.pyInt 100) =
      (.ok ⟨"alice", 0, 0⟩, ⟨[("alice", 0)], 1⟩, ⟨1, 1, 1, 1⟩) := by
  constructor
  · exact donate_balance_nonneg.1 allOk ⟨[("alice", 100)], 0⟩ "alice" (.pyInt 30)
      ⟨"alice", 70, 0⟩ ⟨[("alice", 70)], 1⟩ ⟨1, 1, 1, 1⟩ rfl
  · have e := donate_balance_nonneg.2 ⟨[("alice", 100)], 0⟩ "alice" 100 rfl (by decide)
    simpa [setBalance] using e

/-- C8: when the fetch times out on the first two attempts and the third
attempt runs with a fully working store, the caller sees exactly the
result (value and committed store state) of a single immediately
successful attempt, and no more than 3 attempts run. -/
theorem two_timeouts_then_success (scripts : Nat → AttemptScript) (db : DB)
    (u : String) (p bal : Int)
    (hs1 : (scripts 1).getOutcome = .timeout)
    (hs2 : (scripts 2).getOutcome = .timeout)
    (hs3 : scripts 3 = ⟨.ok, .ok⟩)
    (hl : lookupBalance db.accounts u = some bal)
    (h1 : 0 < p) (h2 : p ≤ bal) :
    (donate scripts db u (.pyInt p)).1 = (donate allOk db u (.pyInt p)).1 ∧
    (donate scripts db u (.pyInt p)).2.1 = (donate allOk db u (.pyInt p)).2.1 ∧
    (donate scripts db u (.pyInt p)).2.2.attempts ≤ 3 := by
  have hp' : ¬ (p ≤ 0) := by omega
  have hb' : ¬ (bal < p) := by omega
  simp [donate, retryRun, addTrace, donate_kbase_points, allOk, hs1, hs2, hs3,
    hl, hp', hb', is_retryable, pyIntValue, isinstance_int]

/-- C8 witness: two timeouts then success on balance 100, points 30. -/
theorem two_timeouts_then_success_witness :
    ((donate (fun n => if n ≤ 2 then ⟨.timeout, .ok⟩ else ⟨.ok, .ok⟩)
        ⟨[("alice", 100)], 0⟩ "alice" (.pyInt 30)).1 =
      (donate allOk ⟨[("alice", 100)], 0⟩ "alice" (.pyInt 30)).1) ∧
    ((donate (fun n => if n ≤ 2 then ⟨.timeout, .ok⟩ else ⟨.ok, .ok⟩)
        ⟨[("alice", 100)], 0⟩ "alice" (.pyInt 30)).2.1 =
      (donate allOk ⟨[("alice", 100)], 0⟩ "alice" (.pyInt 30)).2.1) ∧
    (donate (fun n => if n ≤ 2 then ⟨.timeout, .ok⟩ else ⟨.ok, .ok⟩)
        ⟨[("alice", 100)], 0⟩ "alice" (.pyInt 30)).2.2.attempts ≤ 3 :=
  two_timeouts_then_success (fun n => if n ≤ 2 then ⟨.timeout, .ok⟩ else ⟨.ok, .ok⟩)
    ⟨[("alice", 100)], 0⟩ "alice" 30 100 rfl rfl rfl rfl (by decide) (by decide)

/-- C9: two successive donations of the same `points` by the same user,
both with sufficient balance, each succeed and decrement independently:
the stored balance ends at `bal - 2 * points` and the two update ids
differ (no deduplication). -/
theorem donate_twice_decrements_twice (db : DB) (u : String) (p bal : Int)
    (hl : lookupBalance db.accounts u = some bal)
    (h1 : 0 < p) (h2 : 2 * p ≤ bal) :
    donate allOk db u (.pyInt p) =
      (.ok ⟨u, bal - p, db.nextUpdateId⟩,
       ⟨setBalance db.accounts u (bal - p), db.nextUpdateId + 1⟩,
       ⟨1, 1, 1, 1⟩) ∧
    donate allOk ⟨setBalance db.accounts u (bal - p), db.nextUpdateId + 1⟩ u
        (.pyInt p) =
      (.ok ⟨u, bal - 2 * p, db.nextUpdateId + 1⟩,
       ⟨setBalance (setBalance db.accounts u (bal - p)) u (bal - 2 * p),
        db.nextUpdateId + 2⟩,
       ⟨1, 1, 1, 1⟩) ∧
    lookupBalance (setBalance (setBalance db.accounts u (bal - p)) u
        (bal - 2 * p)) u = some (bal - 2 * p) ∧
    db.nextUpdateId ≠ db.nextUpdateId + 1 := by
  have hl2 : lookupBalance (setBalance db.accounts u (bal - p)) u = some (bal - p) :=
    lookupBalance_setBalance_self db.accounts u bal (bal - p) hl
  have e1 := donate_allOk_success_py db u (.pyInt p) bal hl rfl h1
    (show p ≤ bal by omega)
  have e2 := donate_allOk_success_py
    ⟨setBalance db.accounts u (bal - p), db.nextUpdateId + 1⟩ u (.pyInt p)
    (bal - p) hl2 rfl h1 (show p ≤ bal - p by omega)
  have harith : bal - p - p = bal - 2 * p := by ring
  have hid : db.nextUpdateId + 1 + 1 = db.nextUpdateId + 2 := by omega
  refine ⟨by simpa [pyIntValue] using e1, ?_, ?_, by omega⟩
  · simpa [pyIntValue, harith, hid] using e2
  · have e3 := lookupBalance_setBalance_self (setBalance db.accounts u (bal - p)) u
      (bal - p) (bal - 2 * p) hl2
    exact e3

/-- C9 witness: two donations of 30 from balance 100 end at 40. -/
theorem donate_twice_decrements_twice_witness :
    donate allOk ⟨[("alice", 100)], 0⟩ "alice" (.pyInt 30) =
      (.ok ⟨"alice", 70, 0⟩, ⟨[("alice", 70)], 1⟩, ⟨1, 1, 1, 1⟩) ∧
    donate allOk ⟨[("alice", 70)], 1⟩ "alice" (.pyInt 30) =
      (.ok ⟨"alice", 40, 1⟩, ⟨[("alice", 40)], 2⟩, ⟨1, 1, 1, 1⟩) ∧
    lookupBalance [("alice", 40)] "alice" = some 40 ∧
    (0 : Nat) ≠ 0 + 1 := by
  have e := donate_twice_decrements_twice ⟨[("alice", 100)], 0⟩ "alice" 30 100
    rfl (by decide) (by decide)
  simpa [setBalance] using e

/-- C10: the boolean `True` passes the `isinstance(points, int)` check
(Python `bool` is a subclass of `int`) and behaves exactly like a
donation of 1 point, while `False` (value 0) fails the positivity check
with the `ValueError`, not the `TypeError`. -/
theorem donate_bool_true_as_one (db : DB) (u : String) (bal : Int)
    (hl : lookupBalance db.accounts u = some bal) (h1 : 1 ≤ bal) :
    donate allOk db u (.pyBool true) = donate allOk db u (.pyInt 1) ∧
    (donate allOk db u (.pyBool true)).1 = .ok ⟨u, bal - 1, db.nextUpdateId⟩ ∧
    (donate allOk db u (.pyBool false)).1 =
      .error (.raised (.valueError "Donation points must be a positive integer.")) := by
  have eT := donate_allOk_success_py db u (.pyBool true) bal hl rfl (by decide) h1
  have eI := donate_allOk_success_py db u (.pyInt 1) bal hl rfl (by decide) h1
  refine ⟨eT.trans eI.symm, ?_, ?_⟩
  · rw [eT]
    simp [pyIntValue]
  · simp [donate, retryRun, addTrace, donate_kbase_points, isinstance_int,
      pyIntValue, is_retryable]

/-- C10 witness: balance 100. -/
theorem donate_bool_true_as_one_witness :
    (donate allOk ⟨[("alice", 100)], 0⟩ "alice" (.pyBool true) =
      donate allOk ⟨[("alice", 100)], 0⟩ "alice" (.pyInt 1)) ∧
    (donate allOk ⟨[("alice", 100)], 0⟩ "alice" (.pyBool true)).1 =
      .ok ⟨"alice", 99, 0⟩ ∧
    (donate allOk ⟨[("alice", 100)], 0⟩ "alice" (.pyBool false)).1 =
      .error (.raised (.valueError "Donation points must be a positive integer.")) :=
  donate_bool_true_as_one ⟨[("alice", 100)], 0⟩ "alice" 100 rfl (by decide)

end BusinessNumbers
